import Mathlib

/-!
# Verification of `pywikibot/data/sparql.py`

A shallow embedding of the SPARQL query client of `pywikibot`:
the `SparqlQuery` class (`__init__`, `get_last_response`, `select`, `query`,
`ask`, `get_items`), the RDF node classes (`SparqlNode`, `URI`, `Literal`,
`Bnode`) and the `VALUE_TYPES` dispatch table.

Decoded JSON documents (the values produced by Python's `json` decoding of a
response body) are modelled by the inductive type `Json`; `Json.null` is the
Python value `None`.  Python's dynamic dictionary/subscript/membership
operations are modelled by `Except PyError`-valued functions that raise the
same error classes Python would raise (`KeyError`, `TypeError`, ...).  The
HTTP transport (`pywikibot.comms.http.fetch`) and the retry/backoff mixin
(`WaitingMixin.wait`) are external collaborators; they are modelled by
oracles indexed by the attempt number, and the unbounded `while True` retry
loop of `query` is run on explicit fuel (`LoopResult.fuelOut` standing for
the executions that make more attempts than the supplied fuel).
-/

/-- A decoded-JSON Python value.  `null` is Python `None`; `obj` is a Python
`dict` with string keys (the only kind `json.loads` produces); numbers are
modelled as integers (no claim involves floats). -/
inductive Json where
  | null
  | bool (b : Bool)
  | num (n : Int)
  | str (s : String)
  | arr (elems : List Json)
  | obj (fields : List (String × Json))
deriving Repr

mutual

/-- Structural equality of decoded values, modelling Python `==` on them.
(Python's numeric cross-type equalities such as `True == 1` are not modelled;
no reachable code path compares a bool with a number.) -/
def jsonBeq : Json → Json → Bool
  | .null, .null => true
  | .bool a, .bool b => a == b
  | .num a, .num b => a == b
  | .str a, .str b => a == b
  | .arr a, .arr b => jsonBeqList a b
  | .obj a, .obj b => jsonBeqFields a b
  | _, _ => false

def jsonBeqList : List Json → List Json → Bool
  | [], [] => true
  | a :: as, b :: bs => jsonBeq a b && jsonBeqList as bs
  | _, _ => false

def jsonBeqFields : List (String × Json) → List (String × Json) → Bool
  | [], [] => true
  | (k, v) :: as, (k2, v2) :: bs => k == k2 && jsonBeq v v2 && jsonBeqFields as bs
  | _, _ => false

end

mutual

/-- Python `str()` of a decoded value, as interpolated into the
`f-string` of the unknown-type error of `SparqlQuery.select`.  Lists and
dicts never reach that f-string (the preceding dict-membership test raises
`TypeError: unhashable type` first), so their rendering here is schematic
(Python would quote the strings inside them). -/
def pyStr : Json → String
  | .null => "None"
  | .bool true => "True"
  | .bool false => "False"
  | .num n => toString n
  | .str s => s
  | .arr es => "[" ++ pyStrList es ++ "]"
  | .obj fs => "\x7b" ++ pyStrFields fs ++ "\x7d"

def pyStrList : List Json → String
  | [] => ""
  | [x] => pyStr x
  | x :: xs => pyStr x ++ ", " ++ pyStrList xs

def pyStrFields : List (String × Json) → String
  | [] => ""
  | [(k, v)] => k ++ ": " ++ pyStr v
  | (k, v) :: xs => k ++ ": " ++ pyStr v ++ ", " ++ pyStrFields xs

end

/-- The Python type name of a decoded value (as it appears in error
messages such as `NoneType object is not subscriptable`). -/
def pyTypeName : Json → String
  | .null => "NoneType"
  | .bool _ => "bool"
  | .num _ => "int"
  | .str _ => "str"
  | .arr _ => "list"
  | .obj _ => "dict"

/-- Python truthiness of a decoded value (`None`, `False`, `0`, `""`, `[]`
and `\x7b\x7d` are falsy). -/
def Json.truthy : Json → Bool
  | .null => false
  | .bool b => b
  | .num n => n != 0
  | .str s => !s.isEmpty
  | .arr es => !es.isEmpty
  | .obj fs => !fs.isEmpty

/-- Whether a decoded value is hashable in Python (may be used as a
dict key / tested for dict membership). -/
def jsonHashable : Json → Bool
  | .arr _ => false
  | .obj _ => false
  | _ => true

/-- The Python error classes raised by the code under verification, each
carrying its message (for `KeyError`, the missing key). -/
inductive PyError where
  | keyError (key : String)
  | indexError (msg : String)
  | typeError (msg : String)
  | attributeError (msg : String)
  | valueError (msg : String)
  | notImplementedError (msg : String)
  | pwbError (msg : String)
  | noUsernameError (msg : String)
  | transportError (msg : String)
deriving Repr, DecidableEq

/-- First-match association-list lookup: the lookup of a key in a decoded
Python dict (whose keys are unique). -/
def lookupField : List (String × Json) → String → Option Json
  | [], _ => none
  | (k, v) :: rest, key => if k == key then some v else lookupField rest key

/-- Python string containment `sub in s` on character lists. -/
def listIsInfix (sub s : List Char) : Bool :=
  sub.isPrefixOf s ||
  match s with
  | [] => false
  | _ :: t => listIsInfix sub t

/-- Python `sub in s` for strings: contiguous-substring test. -/
def pyInStr (sub s : String) : Bool := listIsInfix sub.data s.data

/-- Python `s.startswith(p)`. -/
def pyStartswith (s p : String) : Bool := p.data.isPrefixOf s.data

/-- Modelled from the spec: `pywikibot.backports.removeprefix` (the module is
not part of the sources under verification).  Per the spec, `getID` "returns
the suffix of the URI value after the entity-URI prefix", which is Python
`str.removeprefix`: drop `p` from the front of `s` when `s` starts with `p`,
else return `s` unchanged. -/
def removePrefixPy (s p : String) : String :=
  if pyStartswith s p then String.mk (s.data.drop p.data.length) else s

/-- Python subscription `container[key]` on decoded values: dict lookup
(`KeyError` when absent, `TypeError` for unhashable keys), list/str indexing
with negative-index wrap-around, `TypeError` elsewhere.  (Python treats
`True`/`False` as the indices 1/0; that coercion is modelled for list and
string indexing via `pyIndex`.) -/
def pyIndex : Json → Option Int
  | .num n => some n
  | .bool b => some (if b then 1 else 0)
  | _ => none

def pySubscript (container key : Json) : Except PyError Json :=
  match container with
  | .obj fs =>
    match key with
    | .str s =>
      match lookupField fs s with
      | some v => .ok v
      | none => .error (.keyError s)
    | .arr _ => .error (.typeError "unhashable type: list")
    | .obj _ => .error (.typeError "unhashable type: dict")
    | k => .error (.keyError (pyStr k))
  | .arr es =>
    match pyIndex key with
    | some n =>
      let i : Int := if n < 0 then n + es.length else n
      if h : 0 ≤ i ∧ i.toNat < es.length then .ok (es.get ⟨i.toNat, h.2⟩)
      else .error (.indexError "list index out of range")
    | none => .error (.typeError "list indices must be integers or slices")
  | .str s =>
    match pyIndex key with
    | some n =>
      let i : Int := if n < 0 then n + s.data.length else n
      if h : 0 ≤ i ∧ i.toNat < s.data.length then .ok (.str (String.mk [s.data.get ⟨i.toNat, h.2⟩]))
      else .error (.indexError "string index out of range")
    | none => .error (.typeError "string indices must be integers")
  | c => .error (.typeError (pyTypeName c ++ " object is not subscriptable"))

/-- Python membership `x in container` on decoded values: key test for
dicts (`TypeError` on unhashable `x`), element test for lists, substring
test for strings, `TypeError` elsewhere. -/
def pyIn (x container : Json) : Except PyError Bool :=
  match container with
  | .obj fs =>
    if jsonHashable x then .ok (fs.any (fun p => jsonBeq (.str p.1) x))
    else .error (.typeError ("unhashable type: " ++ pyTypeName x))
  | .arr es => .ok (es.any (fun e => jsonBeq e x))
  | .str s =>
    match x with
    | .str sub => .ok (pyInStr sub s)
    | _ => .error (.typeError "a string is required as left operand")
  | c => .error (.typeError ("argument of type " ++ pyTypeName c ++ " is not iterable"))

/-- Python iteration `for x in container` on decoded values: list elements,
string characters, dict keys, `TypeError` elsewhere. -/
def pyIterate : Json → Except PyError (List Json)
  | .arr es => .ok es
  | .str s => .ok (s.data.map (fun c => Json.str (String.mk [c])))
  | .obj fs => .ok (fs.map (fun p => Json.str p.1))
  | j => .error (.typeError (pyTypeName j ++ " object is not iterable"))

/-- Python `container.get(key)` (dict method, default `None`);
`AttributeError` on non-dicts. -/
def pyGetMethod (container : Json) (key : String) : Except PyError Json :=
  match container with
  | .obj fs => .ok ((lookupField fs key).getD .null)
  | c => .error (.attributeError (pyTypeName c ++ " object has no attribute get"))

/-- Truthiness of an optional-string parameter (`None` and `""` are falsy),
as tested by `if not endpoint` etc. in `SparqlQuery.__init__`. -/
def strOptTruthy : Option String → Bool
  | none => false
  | some s => !s.isEmpty

/-! ## URL construction: `urllib.parse.quote` and the request URL -/

/-- The UTF-8 bytes of a character (as `Nat`s). -/
def utf8Bytes (c : Char) : List Nat :=
  let n := c.toNat
  if n < 0x80 then [n]
  else if n < 0x800 then [0xC0 + n / 0x40, 0x80 + n % 0x40]
  else if n < 0x10000 then [0xE0 + n / 0x1000, 0x80 + n / 0x40 % 0x40, 0x80 + n % 0x40]
  else [0xF0 + n / 0x40000, 0x80 + n / 0x1000 % 0x40, 0x80 + n / 0x40 % 0x40, 0x80 + n % 0x40]

/-- Uppercase hexadecimal digit. -/
def hexUpper (n : Nat) : Char :=
  if n < 10 then Char.ofNat (48 + n) else Char.ofNat (55 + n)

/-- A character `urllib.parse.quote` leaves unescaped with the default
`safe='/'`: ASCII alphanumerics, `_.-~` and `/`. -/
def quoteSafeChar (c : Char) : Bool :=
  c.isAlphanum || c == '_' || c == '.' || c == '-' || c == '~' || c == '/'

/-- `urllib.parse.quote(s)` (default `safe='/'`): percent-encode the UTF-8
bytes of every unsafe character, uppercase hex. -/
def quote (s : String) : String :=
  String.mk (s.data.foldr
    (fun c acc =>
      if quoteSafeChar c then c :: acc
      else (utf8Bytes c).foldr (fun b acc2 => '%' :: hexUpper (b / 16) :: hexUpper (b % 16) :: acc2) acc)
    [])

/-- The request URL built by `SparqlQuery.query`:
`f'\x7bself.endpoint\x7d?query=\x7bquote(query)\x7d'`. -/
def buildUrl (endpoint queryText : String) : String :=
  endpoint ++ "?query=" ++ quote queryText

/-! ## The RDF value model: `SparqlNode`, `URI`, `Literal`, `Bnode` -/

/-- A decoded RDF node.  Field values are decoded-JSON values as returned by
`data.get(...)` in the Python constructors (`Json.null` when the key is
absent).  `uri` also stores the `entity_url` reference passed to
`URI.__init__`; `literal` stores `datatype` and `xml:lang`. -/
inductive SparqlNode where
  | uri (value : Json) (entity_url : String)
  | literal (value : Json) (datatype : Json) (language : Json)
  | bnode (value : Json)
deriving Repr

/-- `URI.__init__`: `super().__init__(data.get('value'))`, keep `entity_url`. -/
def URI.make (data : Json) (entity_url : String) : Except PyError SparqlNode := do
  pure (.uri (← pyGetMethod data "value") entity_url)

/-- `Literal.__init__`: value, then `datatype`, then `xml:lang`. -/
def Literal.make (data : Json) : Except PyError SparqlNode := do
  pure (.literal (← pyGetMethod data "value") (← pyGetMethod data "datatype") (← pyGetMethod data "xml:lang"))

/-- `Bnode.__init__`. -/
def Bnode.make (data : Json) : Except PyError SparqlNode := do
  pure (.bnode (← pyGetMethod data "value"))

/-- The `VALUE_TYPES` dispatch dict: type tag to node constructor.  All
constructors receive the term descriptor; `entity_url` is passed as a
keyword argument, consumed by `URI` and swallowed by `**kwargs` in the
others. -/
def VALUE_TYPES : List (String × (Json → String → Except PyError SparqlNode)) :=
  [("uri", fun d e => URI.make d e),
   ("literal", fun d _ => Literal.make d),
   ("bnode", fun d _ => Bnode.make d)]

/-- Python `row[var]['type'] not in VALUE_TYPES` (negated): hashability check
then key membership. -/
def inValueTypes (ty : Json) : Except PyError Bool :=
  if jsonHashable ty then .ok (VALUE_TYPES.any (fun p => jsonBeq (.str p.1) ty))
  else .error (.typeError ("unhashable type: " ++ pyTypeName ty))

/-- `URI.getID`: if the value starts with the entity-URI prefix, strip the
prefix, else return `None`.  Calling `startswith` on a non-string value (the
descriptor had no `value` key, say) raises `AttributeError` exactly as
Python would. -/
def uriGetID (value : Json) (entity_url : String) : Except PyError (Option String) :=
  match value with
  | .str v =>
    if pyStartswith v entity_url then .ok (some (removePrefixPy v entity_url)) else .ok none
  | j => .error (.attributeError (pyTypeName j ++ " object has no attribute startswith"))

/-- One value of a result mapping produced by `SparqlQuery.select`: either a
plain Python value (`Json.null` for an unbound variable, the raw `value`
field otherwise) or, in full-data mode, a decoded RDF node. -/
inductive Cell where
  | json (j : Json)
  | node (n : SparqlNode)
deriving Repr

/-- The attribute access `cell.getID()` performed by `get_items` on a result
cell: only `URI` has a `getID` method; `None`, `Literal`, `Bnode` and plain
values raise `AttributeError`. -/
def cellGetID : Cell → Except PyError (Option String)
  | .node (.uri v e) => uriGetID v e
  | .node (.literal _ _ _) => .error (.attributeError "Literal object has no attribute getID")
  | .node (.bnode _) => .error (.attributeError "Bnode object has no attribute getID")
  | .json j => .error (.attributeError (pyTypeName j ++ " object has no attribute getID"))

/-! ## The transport collaborator and the retry loop -/

/-- A transport response: `json` is the outcome of `.json()` (`none` models
`JSONDecodeError`), `body` is `.content.decode()`. -/
structure Response where
  json : Option Json
  body : String
deriving Repr

/-- One `http.fetch` attempt: a response, a `requests`-classified `Timeout`,
or any other transport error (propagated uncaught by `query`). -/
inductive FetchOutcome where
  | success (r : Response)
  | timeout
  | failure (e : PyError)

/-- The external collaborators of `query`, as oracles indexed by the attempt
number: `fetch` produces the outcome of attempt `k` at a URL with headers;
`wait` is the `WaitingMixin.wait` backoff primitive, which either returns
(retry) or raises (retry budget exhausted — `some e`). -/
structure Transport where
  fetch : Nat → String → List (String × String) → FetchOutcome
  wait : Nat → Option PyError

/-- Result of the `while True: try: fetch; break; except Timeout: wait`
loop, on explicit fuel. -/
inductive LoopResult where
  | got (r : Response)
  | raised (e : PyError)
  | fuelOut
deriving Repr

/-- The fetch loop of `SparqlQuery.query`, instrumented with the list of
`(url, headers)` requests it issues.  `fuelOut` stands for runs that need
more attempts than the supplied fuel. -/
def fetchLoop (t : Transport) (url : String) (headers : List (String × String)) :
    Nat → Nat → LoopResult × List (String × List (String × String))
  | 0, _ => (.fuelOut, [])
  | fuel + 1, attempt =>
    match t.fetch attempt url headers with
    | .success r => (.got r, [(url, headers)])
    | .failure e => (.raised e, [(url, headers)])
    | .timeout =>
      match t.wait attempt with
      | some e => (.raised e, [(url, headers)])
      | none =>
        let rest := fetchLoop t url headers fuel (attempt + 1)
        (rest.1, (url, headers) :: rest.2)

/-- `DEFAULT_HEADERS` of the module. -/
def DEFAULT_HEADERS : List (String × String) :=
  [("cache-control", "no-cache"), ("Accept", "application/sparql-results+json")]

/-- The substring `query` looks for in the URL to recognize the
commons-query deployment. -/
def commonsQueryHost : String := "https://commons-query.wikimedia.org"

/-- Message of the `NoUsernameError` raised by `query` (the source passes it
through `textwrap.fill`, which only re-wraps lines). -/
def notLoggedInMsg : String :=
  "User not logged in. You need to log in to Wikimedia Commons and give OAUTH permission. Open https://commons-query.wikimedia.org with browser to login and give permission."

/-- Observable result of a method call: normal return, raised error, or
out of fuel (the run exceeded the modelled number of attempts). -/
inductive Outcome (α : Type) where
  | ok (v : α)
  | raise (e : PyError)
  | diverge
deriving Repr

/-- Everything observable about a `query` call: its outcome (a decoded
document — `Json.null` models the `return None` paths), the final value of
the `last_response` instance field, and the requests issued. -/
structure QueryRun where
  outcome : Outcome Json
  last_response : Option Response
  requests : List (String × List (String × String))
deriving Repr

/-- `SparqlQuery.query`.  `prev` is the value of `self.last_response` on
entry; the first statement of the method force-clears it (`self.last_response
= None`), so `prev` is dead.  On JSON decode failure the raw body is sniffed:
HTML doctype + commons-query URL + login/OAuth marker raises
`NoUsernameError`, anything else returns `None` silently. -/
def query (t : Transport) (fuel : Nat) (endpoint : String) (prev : Option Response)
    (queryText : String) (headers : Option (List (String × String))) : QueryRun :=
  -- `self.last_response = None` force-clears the handle before the loop; the
  -- `none` in the `fuelOut` and `raised` branches below is that cleared value
  -- (`prev`, the handle on entry, is dead from this point on).
  match fetchLoop t (buildUrl endpoint queryText) (headers.getD DEFAULT_HEADERS) fuel 0 with
  | (.fuelOut, reqs) => ⟨.diverge, none, reqs⟩
  | (.raised e, reqs) => ⟨.raise e, none, reqs⟩
  | (.got r, reqs) =>
    match r.json with
    | some document => ⟨.ok document, some r, reqs⟩
    | none =>
      if pyStartswith r.body "<!DOCTYPE html>"
          && pyInStr commonsQueryHost (buildUrl endpoint queryText)
          && (pyInStr "Special:UserLogin" r.body || pyInStr "Special:OAuth" r.body) then
        ⟨.raise (.noUsernameError notLoggedInMsg), some r, reqs⟩
      else
        ⟨.ok .null, some r, reqs⟩

/-! ## `select`, `ask`, `get_items` -/

/-- The body of the inner loop of `select`: compute `values[var]` for one
declared variable of one binding row — `None` when the variable is not in
the row, the decoded node in full-data mode (unknown type tags are a
`ValueError`), the raw `value` field otherwise. -/
def projectVar (entity_url : String) (full_data : Bool) (row : Json) (var : Json) :
    Except PyError Cell := do
  let bound ← pyIn var row
  if !bound then
    pure (.json .null)
  else if full_data then do
    let tv ← pySubscript row var
    let ty ← pySubscript tv (.str "type")
    let mem ← inValueTypes ty
    if !mem then
      throw (.valueError ("Unknown type: " ++ pyStr ty))
    else
      match ty with
      | .str tag =>
        match VALUE_TYPES.find? (fun p => p.1 == tag) with
        | some entry => Cell.node <$> entry.2 tv entity_url
        | none => throw (.keyError tag)
      | other => throw (.keyError (pyStr other))
  else do
    let tv ← pySubscript row var
    let v ← pySubscript tv (.str "value")
    pure (.json v)

/-- Python dict assignment `d[k] = v` on an insertion-ordered dict: replace
in place when the key is present, append otherwise. -/
def dictInsert (d : List (Json × Cell)) (k : Json) (v : Cell) : List (Json × Cell) :=
  if d.any (fun p => jsonBeq p.1 k) then
    d.map (fun p => if jsonBeq p.1 k then (p.1, v) else p)
  else d ++ [(k, v)]

/-- One iteration of the per-variable loop of `select`: compute the cell and
perform the assignment `values[var] = cell`.  The assignment needs a hashable
key; when `row` is a dict the earlier membership test has already raised on
unhashable variables, but a list row reaches the assignment. -/
def projectRowStep (entity_url : String) (full_data : Bool) (row : Json)
    (values : List (Json × Cell)) (var : Json) : Except PyError (List (Json × Cell)) := do
  let cell ← projectVar entity_url full_data row var
  if jsonHashable var then pure (dictInsert values var cell)
  else throw (.typeError ("unhashable type: " ++ pyTypeName var))

/-- The outer per-row loop body of `select`: build the `values` dict over
the declared variables. -/
def projectRow (entity_url : String) (full_data : Bool) (qvars : List Json) (row : Json) :
    Except PyError (List (Json × Cell)) :=
  qvars.foldlM (projectRowStep entity_url full_data row) []

/-- The part of `SparqlQuery.select` that follows the `query` call, applied
to the decoded document (`Json.null` models a `None` result of `query`):
`if not data or 'results' not in data: return None`, then project
`data['results']['bindings']` over `data['head']['vars']`. -/
def selectData (entity_url : String) (full_data : Bool) (data : Json) :
    Except PyError (Option (List (List (Json × Cell)))) := do
  if !data.truthy then pure none
  else do
    let hasResults ← pyIn (.str "results") data
    if !hasResults then pure none
    else do
      let head ← pySubscript data (.str "head")
      let varsJ ← pySubscript head (.str "vars")
      let qvars ← pyIterate varsJ
      let results ← pySubscript data (.str "results")
      let bindingsJ ← pySubscript results (.str "bindings")
      let rows ← pyIterate bindingsJ
      let result ← rows.mapM (projectRow entity_url full_data qvars)
      pure (some result)

/-- `SparqlQuery.select`: resolve headers, run `query`, project the result. -/
def select (t : Transport) (fuel : Nat) (endpoint entity_url : String) (prev : Option Response)
    (queryText : String) (full_data : Bool) (headers : Option (List (String × String))) :
    Outcome (Option (List (List (Json × Cell)))) :=
  match (query t fuel endpoint prev queryText (some (headers.getD DEFAULT_HEADERS))).outcome with
  | .raise e => .raise e
  | .diverge => .diverge
  | .ok data =>
    match selectData entity_url full_data data with
    | .ok v => .ok v
    | .error e => .raise e

/-- `SparqlQuery.ask`: resolve headers, run `query`, and return
`data['boolean']` with no defensive check (`TypeError` on a `None` result,
`KeyError` on a document without the field). -/
def ask (t : Transport) (fuel : Nat) (endpoint : String) (prev : Option Response)
    (queryText : String) (headers : Option (List (String × String))) : Outcome Json :=
  match (query t fuel endpoint prev queryText (some (headers.getD DEFAULT_HEADERS))).outcome with
  | .raise e => .raise e
  | .diverge => .diverge
  | .ok data =>
    match pySubscript data (.str "boolean") with
    | .ok v => .ok v
    | .error e => .raise e

/-- The dict subscription `r[item_name]` on a result mapping of `select`. -/
def rowSubscript (r : List (Json × Cell)) (key : String) : Except PyError Cell :=
  match r with
  | [] => .error (.keyError key)
  | (k, v) :: rest => if jsonBeq k (.str key) then .ok v else rowSubscript rest key

/-- `SparqlQuery.get_items`: run `select` in full-data mode; if the result is
truthy, feed the generator `r[item_name].getID() for r in res` to the
caller-supplied container constructor `result_type`, else return an empty
container (`result_type` applied to no elements). -/
def get_items {α : Type} (t : Transport) (fuel : Nat) (endpoint entity_url : String)
    (prev : Option Response) (queryText : String) (item_name : String)
    (result_type : List (Option String) → α) : Outcome α :=
  match select t fuel endpoint entity_url prev queryText true none with
  | .raise e => .raise e
  | .diverge => .diverge
  | .ok res =>
    match res with
    | some rows =>
      if rows.isEmpty then .ok (result_type [])
      else
        match rows.mapM (fun r => do cellGetID (← rowSubscript r item_name)) with
        | .ok ids => .ok (result_type ids)
        | .error e => .raise e
    | none => .ok (result_type [])

/-! ## `SparqlQuery.__init__` -/

/-- The site/config collaborator: `sparql_endpoint` and `concept_base_uri`
property accesses, each of which may raise `NotImplementedError`
(`Except.error ()`).  Per the spec's collaborator contract,
`sparql_endpoint` yields a string or an empty/absent value and
`concept_base_uri` yields a string. -/
structure RepoModel where
  sparql_endpoint : Except Unit (Option String)
  concept_base_uri : Except Unit String

/-- Message of the re-raised `NotImplementedError`. -/
def notImplMsg : String :=
  "Wiki version must be 1.28-wmf.23 or newer to automatically extract the sparql endpoint. Please provide the endpoint and entity_url parameters instead of a repo."

/-- `SparqlQuery.__init__`, reduced to the computation of `(self.endpoint,
self.entity_url)`.  `wikidata` models `Site('wikidata')`, the default repo
constructed when neither a repo nor an endpoint is given.  (`max_retries`
and `retry_wait` only configure the external wait mixin and are omitted.) -/
def sparqlInit (wikidata : RepoModel) (endpoint entity_url : Option String)
    (repoArg : Option RepoModel) : Except PyError (String × String) :=
  let repo := if repoArg.isNone && !strOptTruthy endpoint then some wikidata else repoArg
  match repo with
  | some r =>
    match r.sparql_endpoint with
    | .error _ => .error (.notImplementedError notImplMsg)
    | .ok ep =>
      match r.concept_base_uri with
      | .error _ => .error (.notImplementedError notImplMsg)
      | .ok cbu =>
        if !strOptTruthy ep then .error (.pwbError "The site does not provide a sparql endpoint.")
        else .ok (ep.getD "", cbu)
  | none =>
    if !strOptTruthy entity_url then
      .error (.pwbError "If initialised with an endpoint the entity_url must be provided.")
    else .ok (endpoint.getD "", entity_url.getD "")

/-! ## Specification-side descriptions of the `select` projection

The following definitions restate, as total functions, what the spec says
one result cell is; the theorems below prove that the code path
(`projectVar`/`projectRow`/`select`) computes exactly these on well-formed
documents. -/

/-- A field of a term descriptor, `Json.null` when absent. -/
def fieldOf (tv : Json) (key : String) : Json :=
  match tv with
  | .obj fs => (lookupField fs key).getD .null
  | _ => .null

/-- The `type` tag of a term descriptor (empty string when missing or not a
string; only used under well-formedness). -/
def typeTagOf (tv : Json) : String :=
  match tv with
  | .obj fs =>
    match lookupField fs "type" with
    | some (.str t) => t
    | _ => ""
  | _ => ""

/-- The decoded RDF node of a recognized term descriptor. -/
def decodedNode (entity_url : String) (tv : Json) : SparqlNode :=
  match typeTagOf tv with
  | "uri" => .uri (fieldOf tv "value") entity_url
  | "literal" => .literal (fieldOf tv "value") (fieldOf tv "datatype") (fieldOf tv "xml:lang")
  | _ => .bnode (fieldOf tv "value")

/-- What the spec says `values[var]` is: `None` when the variable is absent
from the row, the decoded RDF node in full-data mode, the raw `value` field
otherwise. -/
def rowCellSpec (entity_url : String) (full_data : Bool) (row : Json) (v : String) : Cell :=
  match row with
  | .obj fs =>
    match lookupField fs v with
    | none => .json .null
    | some tv => if full_data then .node (decodedNode entity_url tv) else .json (fieldOf tv "value")
  | _ => .json .null

/-- The result mapping of one binding row: one key per declared variable, in
declared order. -/
def rowProj (entity_url : String) (full_data : Bool) (vars : List String) (row : Json) :
    List (Json × Cell) :=
  vars.map (fun v => (Json.str v, rowCellSpec entity_url full_data row v))

/-- Well-formedness of a term descriptor for the given mode: an object, with
a recognized `type` tag (full-data mode) or with a `value` field (raw
mode). -/
def termWF (full_data : Bool) (tv : Json) : Bool :=
  match tv with
  | .obj fs =>
    if full_data then
      match lookupField fs "type" with
      | some (.str t) => t == "uri" || t == "literal" || t == "bnode"
      | _ => false
    else (lookupField fs "value").isSome
  | _ => false

/-- Well-formedness of one variable of a binding row: unbound, or bound to a
well-formed term descriptor. -/
def varOK (full_data : Bool) (fs : List (String × Json)) (v : String) : Bool :=
  match lookupField fs v with
  | none => true
  | some tv => termWF full_data tv

/-- Well-formedness of a binding row: an object whose bound declared
variables carry well-formed term descriptors. -/
def rowWF (full_data : Bool) (vars : List String) (row : Json) : Bool :=
  match row with
  | .obj fs => vars.all (varOK full_data fs)
  | _ => false

/-- Shape of a well-formed SELECT response document: truthy, contains a
`results` key, and yields a string variable list under `head.vars` and a
row list under `results.bindings`. -/
def docShape (d : Json) (vars : List String) (rows : List Json) : Prop :=
  d.truthy = true ∧
  pyIn (.str "results") d = .ok true ∧
  (∃ hd, pySubscript d (.str "head") = .ok hd ∧
    pySubscript hd (.str "vars") = .ok (.arr (vars.map Json.str))) ∧
  (∃ res, pySubscript d (.str "results") = .ok res ∧
    pySubscript res (.str "bindings") = .ok (.arr rows))

/-- A row binds `item` to a URI descriptor with a string value. -/
def isUriStrBinding (row : Json) (item : String) : Bool :=
  match row with
  | .obj fs =>
    match lookupField fs item with
    | some (.obj tvFs) =>
      (match lookupField tvFs "type" with
       | some (.str t) => t == "uri"
       | _ => false) &&
      (match lookupField tvFs "value" with
       | some (.str _) => true
       | _ => false)
    | _ => false
  | _ => false

/-- A row leaves `item` unbound (an object row without the key). -/
def isUnboundAt (row : Json) (item : String) : Bool :=
  match row with
  | .obj fs => (lookupField fs item).isNone
  | _ => false

/-- The identifier `get_items` extracts from one row: `getID()` of the URI
bound to `item`. -/
def idOfRow (entity_url item : String) (row : Json) : Option String :=
  match row with
  | .obj fs =>
    match lookupField fs item with
    | some tv =>
      match fieldOf tv "value" with
      | .str v => if pyStartswith v entity_url then some (removePrefixPy v entity_url) else none
      | _ => none
    | none => none
  | _ => none

/-- A transport whose every fetch succeeds with the same response and whose
wait never raises (used to instantiate the theorems below at concrete
inputs). -/
def constTransport (r : Response) : Transport :=
  ⟨fun _ _ _ => .success r, fun _ => none⟩

/-! ## Basic lemmas -/

theorem stringEq_of_data {a b : String} (h : a.data = b.data) : a = b := by
  cases a
  cases b
  cases h
  rfl

theorem prefix_append_drop {p s : List Char} (h : p.isPrefixOf s = true) :
    p ++ s.drop p.length = s := by
  induction p generalizing s with
  | nil => simp
  | cons a p ih =>
    cases s with
    | nil => simp [List.isPrefixOf] at h
    | cons b s =>
      rw [List.isPrefixOf_cons₂] at h
      simp only [Bool.and_eq_true, beq_iff_eq] at h
      obtain ⟨rfl, h2⟩ := h
      simpa using ih h2

/-- Resolving the headers default before the call does not change `query`
(the method itself applies the same default). -/
theorem query_resolveHeaders (t : Transport) (fuel : Nat) (endpoint : String)
    (prev : Option Response) (queryText : String)
    (headers : Option (List (String × String))) :
    query t fuel endpoint prev queryText (some (headers.getD DEFAULT_HEADERS))
      = query t fuel endpoint prev queryText headers := by
  cases headers <;> rfl

/-! ## C7: `URI.getID` prefix extraction -/

/-- C7: for every URI node holding a string value, `getID()` returns the
suffix of the value after the entity-URI prefix when the value starts with
that prefix (exact prefix match: prepending the prefix to the result gives
back the value), and returns `None` (not an error) otherwise. -/
theorem uri_getID_prefix_extraction (v p : String) :
    (pyStartswith v p = true →
      uriGetID (.str v) p = .ok (some (removePrefixPy v p)) ∧
      p ++ removePrefixPy v p = v) ∧
    (pyStartswith v p = false →
      uriGetID (.str v) p = .ok none) := by
  constructor
  · intro h
    refine ⟨by simp [uriGetID, h], ?_⟩
    unfold removePrefixPy
    rw [h]
    simp only [if_true]
    apply stringEq_of_data
    rw [String.data_append]
    exact prefix_append_drop h
  · intro h
    simp [uriGetID, h]

/-- Witness for C7 at the spec's own examples. -/
theorem uri_getID_prefix_extraction_witness :
    uriGetID (.str "http://example.org/Q1") "http://example.org/" = .ok (some "Q1") ∧
    uriGetID (.str "http://other.org/Q1") "http://example.org/" = .ok none := by
  constructor
  · exact ((uri_getID_prefix_extraction "http://example.org/Q1" "http://example.org/").1
      (by decide)).1.trans (by rfl)
  · exact (uri_getID_prefix_extraction "http://other.org/Q1" "http://example.org/").2 (by decide)

/-! ## C5: `ask` returns the `boolean` field with no defensive check -/

/-- C5: for every query text and headers, when `query` returns a decoded
object document, `ask` returns its `boolean` field directly, and raises an
unhandled `KeyError` when the field is absent. -/
theorem ask_returns_boolean_field_directly
    (t : Transport) (fuel : Nat) (endpoint : String) (prev : Option Response)
    (queryText : String) (headers : Option (List (String × String)))
    (fs : List (String × Json))
    (hq : (query t fuel endpoint prev queryText headers).outcome = .ok (.obj fs)) :
    (∀ v, lookupField fs "boolean" = some v →
      ask t fuel endpoint prev queryText headers = .ok v) ∧
    (lookupField fs "boolean" = none →
      ask t fuel endpoint prev queryText headers = .raise (.keyError "boolean")) := by
  constructor
  · intro v hv
    unfold ask
    rw [query_resolveHeaders, hq]
    simp [pySubscript, hv]
  · intro hv
    unfold ask
    rw [query_resolveHeaders, hq]
    simp [pySubscript, hv]

/-- Witness for C5: `ask` on `\x7b"boolean": true\x7d` returns `True`; on the
empty document it raises the missing-key error. -/
theorem ask_returns_boolean_field_directly_witness :
    ask (constTransport ⟨some (.obj [("boolean", .bool true)]), ""⟩) 1 "https://ep" none "q" none
      = .ok (.bool true) ∧
    ask (constTransport ⟨some (.obj []), ""⟩) 1 "https://ep" none "q" none
      = .raise (.keyError "boolean") := by
  constructor
  · exact (ask_returns_boolean_field_directly
      (constTransport ⟨some (.obj [("boolean", .bool true)]), ""⟩) 1 "https://ep" none "q" none
      [("boolean", .bool true)] rfl).1 (.bool true) rfl
  · exact (ask_returns_boolean_field_directly
      (constTransport ⟨some (.obj []), ""⟩) 1 "https://ep" none "q" none
      [] rfl).2 rfl

/-! ## C9: endpoint configuration validation (corrected)

The failure cases listed by the claim all hold, but the blanket invariant
"both the endpoint and the entity URI prefix are non-empty, failing
otherwise" does not: in the repo path `concept_base_uri` is adopted without
any check, so a site whose concept base URI is the empty string constructs
successfully with an empty `entity_url`. -/

/-- A site model whose SPARQL endpoint is set but whose concept base URI is
the empty string. -/
def emptyPrefixRepoModel : RepoModel :=
  ⟨.ok (some "https://query.example.org/sparql"), .ok ""⟩

/-- The default `Site('wikidata')` model used to instantiate theorems. -/
def wikidataRepoModel : RepoModel :=
  ⟨.ok (some "https://query.wikidata.org/sparql"), .ok "http://www.wikidata.org/entity/"⟩

/-- C9 counterexample: construction from a site config with an empty
concept-base-URI succeeds and leaves `entity_url` empty — construction does
not enforce a non-empty entity URI prefix in the repo path, contradicting
the claimed invariant. -/
theorem sparqlInit_empty_entity_url_accepted :
    sparqlInit wikidataRepoModel none none (some emptyPrefixRepoModel)
      = .ok ("https://query.example.org/sparql", "") := rfl

/-- A truthy optional string yields a non-empty string under `getD ""`. -/
theorem strOptTruthy_getD_ne (o : Option String) (h : strOptTruthy o = true) :
    o.getD "" ≠ "" := by
  rcases o with _ | s
  · cases h
  · simp only [Option.getD_some]
    intro hs
    subst hs
    exact absurd h (by decide)

/-- C9 (amended): construction fails fast when no endpoint and no site
config resolves to a SPARQL endpoint, when a site config is present but its
endpoint is empty/absent (or SPARQL support is missing), and when an
endpoint is given without an entity URI; on success the endpoint is
non-empty, and in the explicit-endpoint path the entity URI is non-empty
too — but an entity prefix taken from a site config is not validated. -/
theorem sparqlInit_validation
    (w r : RepoModel) (e u : Option String) (r0 : Option RepoModel) (ep eu : String) :
    (r0 = none → strOptTruthy e = false → w.sparql_endpoint = .error () →
      sparqlInit w e u r0 = .error (.notImplementedError notImplMsg)) ∧
    (∀ se cbu, r0 = none → strOptTruthy e = false → w.sparql_endpoint = .ok se →
      strOptTruthy se = false → w.concept_base_uri = .ok cbu →
      sparqlInit w e u r0 = .error (.pwbError "The site does not provide a sparql endpoint.")) ∧
    (∀ se cbu, r.sparql_endpoint = .ok se → strOptTruthy se = false →
      r.concept_base_uri = .ok cbu →
      sparqlInit w e u (some r) = .error (.pwbError "The site does not provide a sparql endpoint.")) ∧
    (r0 = none → strOptTruthy e = true → strOptTruthy u = false →
      sparqlInit w e u r0 = .error (.pwbError "If initialised with an endpoint the entity_url must be provided.")) ∧
    (sparqlInit w e u r0 = .ok (ep, eu) →
      ep ≠ "" ∧ (r0 = none → strOptTruthy e = true → eu ≠ "")) := by
  refine ⟨?_, ?_, ?_, ?_, ?_⟩
  · rintro rfl he hw
    simp [sparqlInit, he, hw]
  · rintro se cbu rfl he hw hse hc
    simp [sparqlInit, he, hw, hse, hc]
  · rintro se cbu hw hse hc
    simp [sparqlInit, hw, hse, hc]
  · rintro rfl he hu
    simp [sparqlInit, he, hu]
  · intro h
    obtain ⟨wse, wcbu⟩ := w
    rcases r0 with _ | ⟨r1se, r1cbu⟩
    · cases he : strOptTruthy e
      · -- default-wikidata path
        rcases wse with _ | se
        · simp [sparqlInit, he] at h
        · rcases wcbu with _ | cbu
          · simp [sparqlInit, he] at h
          · cases hse : strOptTruthy se
            · simp [sparqlInit, he, hse] at h
            · simp [sparqlInit, he, hse] at h
              obtain ⟨hep, heu⟩ := h
              subst hep
              subst heu
              exact ⟨strOptTruthy_getD_ne se hse, fun _ he2 => Bool.noConfusion he2⟩
      · -- explicit-endpoint path
        cases hu : strOptTruthy u
        · simp [sparqlInit, he, hu] at h
        · simp [sparqlInit, he, hu] at h
          obtain ⟨hep, heu⟩ := h
          subst hep
          subst heu
          exact ⟨strOptTruthy_getD_ne e he, fun _ _ => strOptTruthy_getD_ne u hu⟩
    · -- a site config was passed in
      rcases r1se with _ | se
      · simp [sparqlInit] at h
      · rcases r1cbu with _ | cbu
        · simp [sparqlInit] at h
        · cases hse : strOptTruthy se
          · simp [sparqlInit, hse] at h
          · simp [sparqlInit, hse] at h
            obtain ⟨hep, heu⟩ := h
            subst hep
            subst heu
            exact ⟨strOptTruthy_getD_ne se hse, fun hr0 _ => Option.noConfusion hr0⟩

/-- Witness for C9 (amended) at concrete configurations. -/
theorem sparqlInit_validation_witness :
    sparqlInit ⟨.error (), .ok "u"⟩ none none none
      = .error (.notImplementedError notImplMsg) ∧
    sparqlInit ⟨.ok none, .ok "u"⟩ none none none
      = .error (.pwbError "The site does not provide a sparql endpoint.") ∧
    sparqlInit wikidataRepoModel none none (some ⟨.ok (some ""), .ok "u"⟩)
      = .error (.pwbError "The site does not provide a sparql endpoint.") ∧
    sparqlInit wikidataRepoModel (some "https://ep") none none
      = .error (.pwbError "If initialised with an endpoint the entity_url must be provided.") ∧
    ("https://query.example.org/sparql" : String) ≠ "" := by
  refine ⟨?_, ?_, ?_, ?_, ?_⟩
  · exact (sparqlInit_validation ⟨.error (), .ok "u"⟩ wikidataRepoModel none none none "" "").1
      rfl rfl rfl
  · exact (sparqlInit_validation ⟨.ok none, .ok "u"⟩ wikidataRepoModel none none none "" "").2.1
      none "u" rfl rfl rfl rfl rfl
  · exact (sparqlInit_validation wikidataRepoModel ⟨.ok (some ""), .ok "u"⟩ none none
      (some ⟨.ok (some ""), .ok "u"⟩) "" "").2.2.1 (some "") "u" rfl rfl rfl
  · exact (sparqlInit_validation wikidataRepoModel wikidataRepoModel (some "https://ep") none none
      "" "").2.2.2.1 rfl rfl rfl
  · exact ((sparqlInit_validation wikidataRepoModel emptyPrefixRepoModel none none
      (some emptyPrefixRepoModel) "https://query.example.org/sparql" "").2.2.2.2 rfl).1

/-! ## C6: the last-response handle -/

/-- C6: every `query` call force-clears the last-response handle at call
start (the result is independent of the handle's previous value); when the
loop obtains a transport response, the handle is set to it before anything
else happens — on decode success and on decode failure alike, hence before
the login-wall error is raised; when the loop itself terminates by raising,
the handle is left cleared. -/
theorem query_last_response_reset_and_set
    (t : Transport) (fuel : Nat) (endpoint : String) (prev : Option Response)
    (queryText : String) (headers : Option (List (String × String)))
    (r : Response) (e : PyError)
    (reqs reqs2 : List (String × List (String × String))) :
    query t fuel endpoint prev queryText headers
      = query t fuel endpoint none queryText headers ∧
    (fetchLoop t (buildUrl endpoint queryText) (headers.getD DEFAULT_HEADERS) fuel 0
        = (.got r, reqs) →
      (query t fuel endpoint prev queryText headers).last_response = some r) ∧
    (fetchLoop t (buildUrl endpoint queryText) (headers.getD DEFAULT_HEADERS) fuel 0
        = (.raised e, reqs2) →
      (query t fuel endpoint prev queryText headers).outcome = .raise e ∧
      (query t fuel endpoint prev queryText headers).last_response = none) := by
  refine ⟨rfl, ?_, ?_⟩
  · intro hl
    unfold query
    rw [hl]
    cases hj : r.json with
    | some doc => simp [hj]
    | none =>
      simp only [hj]
      split <;> rfl
  · intro hl
    unfold query
    rw [hl]
    exact ⟨rfl, rfl⟩

/-- Witness for C6: a successful fetch of an HTML body sets the handle; a
failing transport leaves it cleared. -/
theorem query_last_response_reset_and_set_witness :
    (query (constTransport ⟨none, "<!DOCTYPE html>"⟩) 1 "https://ep" (some ⟨some .null, "old"⟩) "q" none).last_response
      = some ⟨none, "<!DOCTYPE html>"⟩ ∧
    (query ⟨fun _ _ _ => .failure (.transportError "boom"), fun _ => none⟩ 1 "https://ep"
        (some ⟨some .null, "old"⟩) "q" none).outcome = .raise (.transportError "boom") := by
  constructor
  · exact (query_last_response_reset_and_set (constTransport ⟨none, "<!DOCTYPE html>"⟩) 1
      "https://ep" (some ⟨some .null, "old"⟩) "q" none ⟨none, "<!DOCTYPE html>"⟩
      (.transportError "boom") [(buildUrl "https://ep" "q", DEFAULT_HEADERS)] []).2.1 rfl
  · exact ((query_last_response_reset_and_set ⟨fun _ _ _ => .failure (.transportError "boom"), fun _ => none⟩
      1 "https://ep" (some ⟨some .null, "old"⟩) "q" none ⟨none, "<!DOCTYPE html>"⟩
      (.transportError "boom") [] [(buildUrl "https://ep" "q", DEFAULT_HEADERS)]).2.2 rfl).1

/-! ## C1: login-wall classification on JSON decode failure -/

/-- C1: when the fetched response body fails JSON decoding, `query` raises
`NoUsernameError` exactly when the body starts with the HTML doctype marker,
the request URL contains the commons-query host and the body contains one of
the two login/OAuth markers; in every other decode-failure case it returns
`None` without raising; in both cases the last-response handle is left set
to the response for caller inspection. -/
theorem query_login_wall_classification
    (t : Transport) (fuel : Nat) (endpoint : String) (prev : Option Response)
    (queryText : String) (headers : Option (List (String × String)))
    (r : Response) (reqs : List (String × List (String × String)))
    (hl : fetchLoop t (buildUrl endpoint queryText) (headers.getD DEFAULT_HEADERS) fuel 0
      = (.got r, reqs))
    (hj : r.json = none) :
    ((query t fuel endpoint prev queryText headers).outcome
        = .raise (.noUsernameError notLoggedInMsg) ↔
      (pyStartswith r.body "<!DOCTYPE html>"
        && pyInStr commonsQueryHost (buildUrl endpoint queryText)
        && (pyInStr "Special:UserLogin" r.body || pyInStr "Special:OAuth" r.body)) = true) ∧
    ((pyStartswith r.body "<!DOCTYPE html>"
        && pyInStr commonsQueryHost (buildUrl endpoint queryText)
        && (pyInStr "Special:UserLogin" r.body || pyInStr "Special:OAuth" r.body)) = false →
      (query t fuel endpoint prev queryText headers).outcome = .ok .null) ∧
    (query t fuel endpoint prev queryText headers).last_response = some r := by
  unfold query
  rw [hl]
  simp only [hj]
  cases hc : (pyStartswith r.body "<!DOCTYPE html>"
      && pyInStr commonsQueryHost (buildUrl endpoint queryText)
      && (pyInStr "Special:UserLogin" r.body || pyInStr "Special:OAuth" r.body))
  · simp [hc]
  · simp [hc]

/-- Witness for C1: an HTML login-wall body from the commons-query endpoint
raises; the same body from another endpoint returns `None` with the handle
set. -/
theorem query_login_wall_classification_witness :
    ((query (constTransport ⟨none, "<!DOCTYPE html> Special:UserLogin"⟩) 1
        "https://commons-query.wikimedia.org/sparql" none "q" none).outcome
      = .raise (.noUsernameError notLoggedInMsg)) ∧
    ((query (constTransport ⟨none, "<!DOCTYPE html> Special:UserLogin"⟩) 1
        "https://query.wikidata.org/sparql" none "q" none).outcome = .ok .null) ∧
    ((query (constTransport ⟨none, "<!DOCTYPE html> Special:UserLogin"⟩) 1
        "https://query.wikidata.org/sparql" none "q" none).last_response
      = some ⟨none, "<!DOCTYPE html> Special:UserLogin"⟩) := by
  refine ⟨?_, ?_, ?_⟩
  · exact (query_login_wall_classification (constTransport ⟨none, "<!DOCTYPE html> Special:UserLogin"⟩)
      1 "https://commons-query.wikimedia.org/sparql" none "q" none
      ⟨none, "<!DOCTYPE html> Special:UserLogin"⟩ _ rfl rfl).1.mpr (by decide)
  · exact (query_login_wall_classification (constTransport ⟨none, "<!DOCTYPE html> Special:UserLogin"⟩)
      1 "https://query.wikidata.org/sparql" none "q" none
      ⟨none, "<!DOCTYPE html> Special:UserLogin"⟩ _ rfl rfl).2.1 (by decide)
  · exact (query_login_wall_classification (constTransport ⟨none, "<!DOCTYPE html> Special:UserLogin"⟩)
      1 "https://query.wikidata.org/sparql" none "q" none
      ⟨none, "<!DOCTYPE html> Special:UserLogin"⟩ _ rfl rfl).2.2

/-! ## C4: the retry loop -/

/-- Every request the fetch loop issues uses the same URL and headers. -/
theorem fetchLoop_requests_const (t : Transport) (url : String)
    (headers : List (String × String)) :
    ∀ (fuel attempt : Nat) (p : String × List (String × String)),
      p ∈ (fetchLoop t url headers fuel attempt).2 → p = (url, headers) := by
  intro fuel
  induction fuel with
  | zero =>
    intro attempt p hp
    simp [fetchLoop] at hp
  | succ n ih =>
    intro attempt p hp
    unfold fetchLoop at hp
    cases hf : t.fetch attempt url headers with
    | success r =>
      rw [hf] at hp
      simpa using hp
    | failure e2 =>
      rw [hf] at hp
      simpa using hp
    | timeout =>
      rw [hf] at hp
      cases hw : t.wait attempt with
      | some e2 =>
        rw [hw] at hp
        simpa using hp
      | none =>
        rw [hw] at hp
        simp only [List.mem_cons] at hp
        rcases hp with rfl | hp
        · rfl
        · exact ih (attempt + 1) p hp

/-- If every attempt times out and the wait primitive never raises, the loop
never terminates on its own: it runs out of any amount of fuel. -/
theorem fetchLoop_all_timeout (t : Transport) (url : String)
    (headers : List (String × String))
    (hf : ∀ j, t.fetch j url headers = .timeout) (hw : ∀ j, t.wait j = none) :
    ∀ (fuel attempt : Nat), (fetchLoop t url headers fuel attempt).1 = .fuelOut := by
  intro fuel
  induction fuel with
  | zero => intro attempt; rfl
  | succ n ih =>
    intro attempt
    unfold fetchLoop
    rw [hf attempt, hw attempt]
    exact ih (attempt + 1)

/-- C4: in `query`'s fetch loop, a timeout consults the shared wait
primitive: if the wait returns, the identical request (same URL, same
headers) is retried; if the wait raises, the loop terminates with that
error; a non-timeout transport error terminates the loop immediately
(propagated to `query`'s caller, wait never consulted); every request issued
is identical; and with timeouts forever and a never-raising wait the loop
has no local retry budget — it never terminates on its own. -/
theorem query_retry_loop_behaviour
    (t : Transport) (url : String) (hdrs : List (String × String))
    (fuel attempt : Nat) (e : PyError)
    (endpoint queryText : String) (prev : Option Response)
    (headers : Option (List (String × String)))
    (reqs : List (String × List (String × String))) :
    (∀ p ∈ (fetchLoop t url hdrs fuel attempt).2, p = (url, hdrs)) ∧
    (t.fetch attempt url hdrs = .timeout → t.wait attempt = none →
      fetchLoop t url hdrs (fuel + 1) attempt
        = ((fetchLoop t url hdrs fuel (attempt + 1)).1,
           (url, hdrs) :: (fetchLoop t url hdrs fuel (attempt + 1)).2)) ∧
    (t.fetch attempt url hdrs = .timeout → t.wait attempt = some e →
      fetchLoop t url hdrs (fuel + 1) attempt = (.raised e, [(url, hdrs)])) ∧
    (t.fetch attempt url hdrs = .failure e →
      fetchLoop t url hdrs (fuel + 1) attempt = (.raised e, [(url, hdrs)])) ∧
    ((∀ j, t.fetch j url hdrs = .timeout) → (∀ j, t.wait j = none) →
      (fetchLoop t url hdrs fuel attempt).1 = .fuelOut) ∧
    (fetchLoop t (buildUrl endpoint queryText) (headers.getD DEFAULT_HEADERS) fuel 0
        = (.raised e, reqs) →
      (query t fuel endpoint prev queryText headers).outcome = .raise e) ∧
    (query t fuel endpoint prev queryText headers).requests
      = (fetchLoop t (buildUrl endpoint queryText) (headers.getD DEFAULT_HEADERS) fuel 0).2 := by
  refine ⟨fetchLoop_requests_const t url hdrs fuel attempt, ?_, ?_, ?_,
    fun a b => fetchLoop_all_timeout t url hdrs a b fuel attempt, ?_, ?_⟩
  · intro hf hw
    conv_lhs => unfold fetchLoop
    rw [hf, hw]
  · intro hf hw
    unfold fetchLoop
    rw [hf, hw]
  · intro hf
    unfold fetchLoop
    rw [hf]
  · intro hl
    unfold query
    rw [hl]
  · unfold query
    rcases hl : fetchLoop t (buildUrl endpoint queryText) (headers.getD DEFAULT_HEADERS) fuel 0
      with ⟨res, rq⟩
    cases res with
    | got r =>
      cases hj : r.json with
      | some doc => simp [hj]
      | none =>
        simp only [hj]
        split <;> rfl
    | raised e2 => rfl
    | fuelOut => rfl

/-- Witness for C4 at concrete transports: one timeout then success retries
the identical request; a raising wait ends the loop with its error; a
non-timeout failure ends it at once; all-timeout transports exhaust any
fuel. -/
theorem query_retry_loop_behaviour_witness :
    fetchLoop ⟨fun k _ _ => if k = 0 then .timeout else .success ⟨some .null, ""⟩, fun _ => none⟩
        "u" [] 2 0
      = ((fetchLoop ⟨fun k _ _ => if k = 0 then .timeout else .success ⟨some .null, ""⟩, fun _ => none⟩
            "u" [] 1 1).1,
         ("u", []) :: (fetchLoop ⟨fun k _ _ => if k = 0 then .timeout else .success ⟨some .null, ""⟩,
            fun _ => none⟩ "u" [] 1 1).2) ∧
    fetchLoop ⟨fun _ _ _ => .timeout, fun _ => some (.transportError "retries exhausted")⟩ "u" [] 3 0
      = (.raised (.transportError "retries exhausted"), [("u", [])]) ∧
    fetchLoop ⟨fun _ _ _ => .failure (.transportError "boom"), fun _ => none⟩ "u" [] 3 0
      = (.raised (.transportError "boom"), [("u", [])]) ∧
    (fetchLoop ⟨fun _ _ _ => .timeout, fun _ => none⟩ "u" [] 9 0).1 = .fuelOut ∧
    (query ⟨fun _ _ _ => .failure (.transportError "boom"), fun _ => none⟩ 3 "https://ep" none "q"
        none).outcome = .raise (.transportError "boom") := by
  refine ⟨?_, ?_, ?_, ?_, ?_⟩
  · exact (query_retry_loop_behaviour
      ⟨fun k _ _ => if k = 0 then .timeout else .success ⟨some .null, ""⟩, fun _ => none⟩
      "u" [] 1 0 (.transportError "x") "e" "q" none none []).2.1 rfl rfl
  · exact (query_retry_loop_behaviour
      ⟨fun _ _ _ => .timeout, fun _ => some (.transportError "retries exhausted")⟩
      "u" [] 2 0 (.transportError "retries exhausted") "e" "q" none none []).2.2.1 rfl rfl
  · exact (query_retry_loop_behaviour
      ⟨fun _ _ _ => .failure (.transportError "boom"), fun _ => none⟩
      "u" [] 2 0 (.transportError "boom") "e" "q" none none []).2.2.2.1 rfl
  · exact (query_retry_loop_behaviour
      ⟨fun _ _ _ => .timeout, fun _ => none⟩
      "u" [] 9 0 (.transportError "x") "e" "q" none none []).2.2.2.2.1 (fun _ => rfl) (fun _ => rfl)
  · exact (query_retry_loop_behaviour
      ⟨fun _ _ _ => .failure (.transportError "boom"), fun _ => none⟩
      "u" [] 3 0 (.transportError "boom") "https://ep" "q" none none
      [(buildUrl "https://ep" "q", DEFAULT_HEADERS)]).2.2.2.2.2.1 rfl

/-! ## Lemmas about the `select` projection -/

@[simp] theorem pyBind_ok {α β : Type} (a : α) (f : α → Except PyError β) :
    (Bind.bind (Except.ok a) f : Except PyError β) = f a := rfl

@[simp] theorem pyBind_error {α β : Type} (e : PyError) (f : α → Except PyError β) :
    (Bind.bind (Except.error e) f : Except PyError β) = .error e := rfl

@[simp] theorem pyPure {α : Type} (a : α) : (Pure.pure a : Except PyError α) = .ok a := rfl

@[simp] theorem pyMap_ok {α β : Type} (f : α → β) (a : α) :
    (f <$> (Except.ok a : Except PyError α)) = .ok (f a) := rfl

@[simp] theorem jsonBeq_str_str (a b : String) : jsonBeq (.str a) (.str b) = (a == b) := by
  simp [jsonBeq]

theorem any_jsonBeq_eq_lookup (v : String) : ∀ fs : List (String × Json),
    (fs.any fun p => jsonBeq (Json.str p.1) (Json.str v)) = (lookupField fs v).isSome := by
  intro fs
  induction fs with
  | nil => rfl
  | cons p rest ih =>
    obtain ⟨k, jv⟩ := p
    simp only [List.any_cons, lookupField, ih]
    rw [jsonBeq_str_str]
    cases hk : (k == v) with
    | true => simp [hk]
    | false => simp [hk]

theorem pyIn_str_obj (v : String) (fs : List (String × Json)) :
    pyIn (.str v) (.obj fs) = .ok ((lookupField fs v).isSome) := by
  show Except.ok (fs.any fun p => jsonBeq (Json.str p.1) (Json.str v)) = _
  rw [any_jsonBeq_eq_lookup]

theorem projectVar_wf (e : String) (fd : Bool) (fs : List (String × Json)) (v : String)
    (h : varOK fd fs v = true) :
    projectVar e fd (.obj fs) (.str v) = .ok (rowCellSpec e fd (.obj fs) v) := by
  unfold projectVar
  rw [pyIn_str_obj]
  cases hlv : lookupField fs v with
  | none => simp [hlv, rowCellSpec]
  | some tv =>
    have h2 : termWF fd tv = true := by
      unfold varOK at h
      rw [hlv] at h
      exact h
    clear h
    cases tv with
    | obj tfs =>
      cases fd with
      | false =>
        rw [show termWF false (.obj tfs) = (lookupField tfs "value").isSome from rfl] at h2
        cases hval : lookupField tfs "value" with
        | none => rw [hval] at h2; cases h2
        | some jv =>
          simp [hlv, pySubscript, hval, rowCellSpec, fieldOf]
      | true =>
        rw [show termWF true (.obj tfs)
            = (match lookupField tfs "type" with
               | some (.str t) => t == "uri" || t == "literal" || t == "bnode"
               | _ => false) from rfl] at h2
        cases hty : lookupField tfs "type" with
        | none => rw [hty] at h2; cases h2
        | some tyv =>
          rw [hty] at h2
          cases tyv with
          | str tag =>
            cases h1 : (tag == "uri") with
            | true =>
              have htag : tag = "uri" := beq_iff_eq.mp h1
              subst htag
              simp [hlv, pySubscript, hty, inValueTypes, jsonHashable, VALUE_TYPES,
                URI.make, pyGetMethod, rowCellSpec, decodedNode, typeTagOf, fieldOf]
            | false =>
              cases ht2 : (tag == "literal") with
              | true =>
                have htag : tag = "literal" := beq_iff_eq.mp ht2
                subst htag
                simp [hlv, pySubscript, hty, inValueTypes, jsonHashable, VALUE_TYPES,
                  Literal.make, pyGetMethod, rowCellSpec, decodedNode, typeTagOf, fieldOf]
              | false =>
                cases h3 : (tag == "bnode") with
                | true =>
                  have htag : tag = "bnode" := beq_iff_eq.mp h3
                  subst htag
                  simp [hlv, pySubscript, hty, inValueTypes, jsonHashable, VALUE_TYPES,
                    Bnode.make, pyGetMethod, rowCellSpec, decodedNode, typeTagOf, fieldOf]
                | false =>
                  have h4 : (tag == "uri" || tag == "literal" || tag == "bnode") = true := h2
                  rw [h1, ht2, h3] at h4
                  cases h4
          | null => cases h2
          | bool b => cases h2
          | num n => cases h2
          | arr es => cases h2
          | obj fs2 => cases h2
    | null => cases fd <;> simp [termWF] at h2
    | bool b => cases fd <;> simp [termWF] at h2
    | num n => cases fd <;> simp [termWF] at h2
    | str s => cases fd <;> simp [termWF] at h2
    | arr es => cases fd <;> simp [termWF] at h2

theorem dictInsert_notMem (acc : List (Json × Cell)) (k : Json) (c : Cell)
    (h : acc.any (fun p => jsonBeq p.1 k) = false) :
    dictInsert acc k c = acc ++ [(k, c)] := by
  simp [dictInsert, h]

theorem projectRowStep_ok (e : String) (fd : Bool) (fs : List (String × Json))
    (acc : List (Json × Cell)) (v : String)
    (hok : varOK fd fs v = true)
    (hacc : acc.any (fun p => jsonBeq p.1 (.str v)) = false) :
    projectRowStep e fd (.obj fs) acc (.str v)
      = .ok (acc ++ [(Json.str v, rowCellSpec e fd (.obj fs) v)]) := by
  unfold projectRowStep
  rw [projectVar_wf e fd fs v hok]
  simp only [pyBind_ok]
  rw [show jsonHashable (Json.str v) = true from rfl]
  simp [dictInsert_notMem acc _ _ hacc]

theorem projectRow_go (e : String) (fd : Bool) (fs : List (String × Json)) :
    ∀ (vs : List String) (acc : List (Json × Cell)),
      vs.Nodup →
      (∀ u ∈ vs, acc.any (fun p => jsonBeq p.1 (.str u)) = false) →
      (∀ u ∈ vs, varOK fd fs u = true) →
      List.foldlM (projectRowStep e fd (.obj fs)) acc (vs.map Json.str)
        = .ok (acc ++ rowProj e fd vs (.obj fs)) := by
  intro vs
  induction vs with
  | nil =>
    intro acc _ _ _
    simp [rowProj]
  | cons v rest ih =>
    intro acc hnd hacc hok
    have hvnotin : v ∉ rest := (List.nodup_cons.mp hnd).1
    simp only [List.map_cons, List.foldlM_cons]
    rw [projectRowStep_ok e fd fs acc v (hok v (by simp)) (hacc v (by simp))]
    simp only [pyBind_ok]
    rw [ih (acc ++ [(Json.str v, rowCellSpec e fd (.obj fs) v)]) (List.nodup_cons.mp hnd).2
      (by
        intro u hu
        rw [List.any_append]
        rw [hacc u (List.mem_cons_of_mem v hu)]
        simp only [List.any_cons, List.any_nil, Bool.false_or, Bool.or_false]
        rw [jsonBeq_str_str]
        exact beq_eq_false_iff_ne.mpr (fun heq => hvnotin (heq ▸ hu)))
      (fun u hu => hok u (List.mem_cons_of_mem v hu))]
    simp [rowProj]

theorem projectRow_wf (e : String) (fd : Bool) (vars : List String) (row : Json)
    (hnd : vars.Nodup) (hwf : rowWF fd vars row = true) :
    projectRow e fd (vars.map Json.str) row = .ok (rowProj e fd vars row) := by
  cases row with
  | obj fs =>
    have hall : ∀ u ∈ vars, varOK fd fs u = true := fun u hu =>
      List.all_eq_true.mp hwf u hu
    unfold projectRow
    rw [projectRow_go e fd fs vars [] hnd (fun u _ => rfl) hall]
    simp
  | null => cases hwf
  | bool b => cases hwf
  | num n => cases hwf
  | str s => cases hwf
  | arr es => cases hwf

theorem mapM_projectRow_wf (e : String) (fd : Bool) (vars : List String)
    (hnd : vars.Nodup) :
    ∀ rows : List Json, (∀ row ∈ rows, rowWF fd vars row = true) →
      rows.mapM (projectRow e fd (vars.map Json.str))
        = .ok (rows.map (rowProj e fd vars)) := by
  intro rows
  induction rows with
  | nil => intro _; rfl
  | cons row rest ih =>
    intro h
    rw [List.mapM_cons]
    rw [projectRow_wf e fd vars row hnd (h row (by simp))]
    simp only [pyBind_ok]
    rw [ih (fun r hr => h r (by simp [hr]))]
    simp only [pyBind_ok, pyPure]
    simp

theorem selectData_wf (entity_url : String) (fd : Bool) (d : Json)
    (vars : List String) (rows : List Json)
    (hshape : docShape d vars rows) (hnd : vars.Nodup)
    (hrows : ∀ row ∈ rows, rowWF fd vars row = true) :
    selectData entity_url fd d = .ok (some (rows.map (rowProj entity_url fd vars))) := by
  obtain ⟨htr, hres, ⟨hd2, hh, hv⟩, ⟨res, hr, hb⟩⟩ := hshape
  unfold selectData
  simp only [htr, hres, hh, hv, hr, hb, pyBind_ok, Bool.not_true, reduceIte, pyIterate]
  rw [mapM_projectRow_wf entity_url fd vars hnd rows hrows]
  simp

theorem select_wf_eval
    (t : Transport) (fuel : Nat) (endpoint entity_url : String) (prev : Option Response)
    (q : String) (hdrs : Option (List (String × String))) (fd : Bool)
    (d : Json) (vars : List String) (rows : List Json)
    (hq : (query t fuel endpoint prev q hdrs).outcome = .ok d)
    (hshape : docShape d vars rows)
    (hnd : vars.Nodup)
    (hrows : ∀ row ∈ rows, rowWF fd vars row = true) :
    select t fuel endpoint entity_url prev q fd hdrs
      = .ok (some (rows.map (rowProj entity_url fd vars))) := by
  unfold select
  rw [query_resolveHeaders, hq]
  show (match selectData entity_url fd d with
      | Except.ok v => (Outcome.ok v : Outcome (Option (List (List (Json × Cell)))))
      | Except.error e => Outcome.raise e) = _
  rw [selectData_wf entity_url fd d vars rows hshape hnd hrows]

theorem rowSubscript_rowProj (e : String) (fd : Bool) (row : Json) (item : String) :
    ∀ vars : List String, item ∈ vars →
      rowSubscript (rowProj e fd vars row) item = .ok (rowCellSpec e fd row item) := by
  intro vars
  induction vars with
  | nil => intro h; cases h
  | cons v rest ih =>
    intro h
    rw [show rowProj e fd (v :: rest) row
        = (Json.str v, rowCellSpec e fd row v) :: rowProj e fd rest row from rfl]
    rw [show rowSubscript ((Json.str v, rowCellSpec e fd row v) :: rowProj e fd rest row) item
        = (if jsonBeq (Json.str v) (Json.str item) = true then .ok (rowCellSpec e fd row v)
           else rowSubscript (rowProj e fd rest row) item) from rfl]
    rw [jsonBeq_str_str]
    cases hv : (v == item) with
    | true =>
      have hveq : v = item := beq_iff_eq.mp hv
      subst hveq
      simp
    | false =>
      have hmem : item ∈ rest := by
        rcases List.mem_cons.mp h with heq | hmem
        · simp [heq] at hv
        · exact hmem
      simp only [Bool.false_eq_true, if_false]
      exact ih hmem

/-! ## C2: `select` on well-formed SELECT responses -/

/-- C2: for every well-formed SELECT response, `select` returns one mapping
per binding row in source order; each mapping has exactly the declared
variables as keys (in declared order), each bound to `rowCellSpec`: `None`
when the variable is absent from the row, the decoded RDF node in full-data
mode, the raw `value` field otherwise.  When `query` returns `None` or the
document lacks a `results` key, `select` returns `None`. -/
theorem select_wellformed_projection
    (t : Transport) (fuel : Nat) (endpoint entity_url : String) (prev : Option Response)
    (q : String) (hdrs : Option (List (String × String))) (fd : Bool) :
    ((query t fuel endpoint prev q hdrs).outcome = .ok .null →
      select t fuel endpoint entity_url prev q fd hdrs = .ok none) ∧
    (∀ d : Json, (query t fuel endpoint prev q hdrs).outcome = .ok d →
      d.truthy = true → pyIn (.str "results") d = .ok false →
      select t fuel endpoint entity_url prev q fd hdrs = .ok none) ∧
    (∀ (d : Json) (vars : List String) (rows : List Json),
      (query t fuel endpoint prev q hdrs).outcome = .ok d →
      docShape d vars rows → vars.Nodup →
      (∀ row ∈ rows, rowWF fd vars row = true) →
      select t fuel endpoint entity_url prev q fd hdrs
        = .ok (some (rows.map (rowProj entity_url fd vars))) ∧
      (rows.map (rowProj entity_url fd vars)).length = rows.length ∧
      (∀ row ∈ rows,
        (rowProj entity_url fd vars row).map Prod.fst = vars.map Json.str ∧
        ∀ v ∈ vars,
          rowSubscript (rowProj entity_url fd vars row) v
            = .ok (rowCellSpec entity_url fd row v))) := by
  refine ⟨?_, ?_, ?_⟩
  · intro hq
    unfold select
    rw [query_resolveHeaders, hq]
    rfl
  · intro d hq htr hres
    unfold select
    rw [query_resolveHeaders, hq]
    show (match selectData entity_url fd d with
        | Except.ok v => (Outcome.ok v : Outcome (Option (List (List (Json × Cell)))))
        | Except.error e => Outcome.raise e) = _
    have hsd : selectData entity_url fd d = .ok none := by
      unfold selectData
      rw [htr]
      simp only [Bool.not_true, reduceIte, hres, pyBind_ok, Bool.not_false]
      rfl
    rw [hsd]
  · intro d vars rows hq hshape hnd hrows
    refine ⟨select_wf_eval t fuel endpoint entity_url prev q hdrs fd d vars rows
        hq hshape hnd hrows, by simp, ?_⟩
    intro row hrw
    exact ⟨by simp [rowProj], fun v hv =>
      rowSubscript_rowProj entity_url fd row v vars hv⟩

/-- Sample well-formed SELECT document for the witnesses: one URI binding,
one declared variable left unbound. -/
def docExample : Json :=
  .obj [("head", .obj [("vars", .arr [.str "item", .str "x"])]),
        ("results", .obj [("bindings", .arr [
          .obj [("item", .obj [("type", .str "uri"),
                               ("value", .str "http://www.wikidata.org/entity/Q1")])]])])]

/-- Witness for C2: the three scenarios at concrete documents. -/
theorem select_wellformed_projection_witness :
    select (constTransport ⟨some docExample, ""⟩) 1 "https://ep"
        "http://www.wikidata.org/entity/" none "q" false none
      = .ok (some [[(.str "item", .json (.str "http://www.wikidata.org/entity/Q1")),
                    (.str "x", .json .null)]]) ∧
    select (constTransport ⟨none, "zz"⟩) 1 "https://ep" "e" none "q" false none = .ok none ∧
    select (constTransport ⟨some (.obj [("boolean", .bool true)]), ""⟩) 1 "https://ep" "e"
        none "q" false none = .ok none := by
  refine ⟨?_, ?_, ?_⟩
  · exact ((select_wellformed_projection (constTransport ⟨some docExample, ""⟩) 1 "https://ep"
      "http://www.wikidata.org/entity/" none "q" none false).2.2 docExample ["item", "x"]
      [.obj [("item", .obj [("type", .str "uri"),
                            ("value", .str "http://www.wikidata.org/entity/Q1")])]]
      rfl ⟨rfl, rfl, ⟨_, rfl, rfl⟩, ⟨_, rfl, rfl⟩⟩ (by decide)
      (by intro row hr; simp only [List.mem_singleton] at hr; subst hr; decide)).1.trans (by rfl)
  · exact (select_wellformed_projection (constTransport ⟨none, "zz"⟩) 1 "https://ep" "e"
      none "q" none false).1 rfl
  · exact (select_wellformed_projection (constTransport ⟨some (.obj [("boolean", .bool true)]), ""⟩)
      1 "https://ep" "e" none "q" none false).2.1 (.obj [("boolean", .bool true)]) rfl rfl rfl

/-! ## C3: unrecognized term type tags -/

theorem projectVar_unknown_tag (e : String) (fs : List (String × Json)) (v : String)
    (tvFs : List (String × Json)) (tag : String)
    (hlv : lookupField fs v = some (.obj tvFs))
    (hty : lookupField tvFs "type" = some (.str tag))
    (hbad1 : tag ≠ "uri") (hbad2 : tag ≠ "literal") (hbad3 : tag ≠ "bnode") :
    projectVar e true (.obj fs) (.str v)
      = .error (.valueError ("Unknown type: " ++ tag)) := by
  unfold projectVar
  rw [pyIn_str_obj, hlv]
  simp only [Option.isSome_some, pyBind_ok, Bool.not_true, reduceIte]
  simp [pySubscript, hlv, hty, inValueTypes, jsonHashable, VALUE_TYPES, pyStr,
    beq_eq_false_iff_ne.mpr (Ne.symm hbad1), beq_eq_false_iff_ne.mpr (Ne.symm hbad2),
    beq_eq_false_iff_ne.mpr (Ne.symm hbad3)]
  rfl

theorem projectRow_reach_error (e : String) (fd : Bool) (fs : List (String × Json))
    (err : PyError) (v : String)
    (hv : projectVar e fd (.obj fs) (.str v) = .error err) :
    ∀ (pre post : List String) (acc : List (Json × Cell)),
      (∀ u ∈ pre, varOK fd fs u = true) →
      List.foldlM (projectRowStep e fd (.obj fs)) acc ((pre ++ v :: post).map Json.str)
        = .error err := by
  intro pre
  induction pre with
  | nil =>
    intro post acc _
    simp only [List.nil_append, List.map_cons, List.foldlM_cons]
    unfold projectRowStep
    rw [hv]
    rfl
  | cons u rest ih =>
    intro post acc hok
    simp only [List.cons_append, List.map_cons, List.foldlM_cons]
    rw [show projectRowStep e fd (Json.obj fs) acc (Json.str u)
        = Bind.bind (projectVar e fd (Json.obj fs) (Json.str u))
            (fun cell => pure (dictInsert acc (Json.str u) cell)) from rfl]
    rw [projectVar_wf e fd fs u (hok u (by simp))]
    simp only [pyBind_ok, pyPure]
    exact ih post (dictInsert acc (Json.str u) (rowCellSpec e fd (.obj fs) u))
      (fun w hw => hok w (by simp [hw]))

theorem projectRow_ok_exists (e : String) (fd : Bool) (fs : List (String × Json)) :
    ∀ (vs : List String) (acc : List (Json × Cell)),
      (∀ u ∈ vs, varOK fd fs u = true) →
      ∃ out, List.foldlM (projectRowStep e fd (.obj fs)) acc (vs.map Json.str) = .ok out := by
  intro vs
  induction vs with
  | nil => intro acc _; exact ⟨acc, rfl⟩
  | cons u rest ih =>
    intro acc hok
    simp only [List.map_cons, List.foldlM_cons]
    rw [show projectRowStep e fd (Json.obj fs) acc (Json.str u)
        = Bind.bind (projectVar e fd (Json.obj fs) (Json.str u))
            (fun cell => pure (dictInsert acc (Json.str u) cell)) from rfl]
    rw [projectVar_wf e fd fs u (hok u (by simp))]
    simp only [pyBind_ok, pyPure]
    exact ih (dictInsert acc (Json.str u) (rowCellSpec e fd (.obj fs) u))
      (fun w hw => hok w (by simp [hw]))

theorem mapM_reach_error {β : Type} (f : Json → Except PyError β) (err : PyError)
    (bad : Json) (hbad : f bad = .error err) :
    ∀ (pre post : List Json),
      (∀ r ∈ pre, ∃ out, f r = .ok out) →
      (pre ++ bad :: post).mapM f = .error err := by
  intro pre
  induction pre with
  | nil =>
    intro post _
    rw [List.nil_append, List.mapM_cons, hbad]
    rfl
  | cons r rest ih =>
    intro post hok
    obtain ⟨out, hout⟩ := hok r (by simp)
    rw [List.cons_append, List.mapM_cons, hout]
    simp only [pyBind_ok]
    rw [ih post (fun r2 hr2 => hok r2 (by simp [hr2]))]
    rfl

/-- C3: a term descriptor whose `type` tag is a string other than `uri`,
`literal`, `bnode` makes full-data `select` fail with a `ValueError` whose
message carries the offending tag; the surrounding rows and variables
(whatever follows the bad binding) are discarded — the whole projection
aborts with the error rather than returning a list. -/
theorem select_unknown_type_tag_valueerror
    (t : Transport) (fuel : Nat) (endpoint entity_url : String) (prev : Option Response)
    (q : String) (hdrs : Option (List (String × String)))
    (d : Json) (vars : List String) (rows : List Json)
    (rpre rpost : List Json) (rowFs : List (String × Json))
    (vpre vpost : List String) (v : String)
    (tvFs : List (String × Json)) (tag : String)
    (hq : (query t fuel endpoint prev q hdrs).outcome = .ok d)
    (hshape : docShape d vars rows)
    (hrowsplit : rows = rpre ++ Json.obj rowFs :: rpost)
    (hpre : ∀ row ∈ rpre, rowWF true vars row = true)
    (hvarsplit : vars = vpre ++ v :: vpost)
    (hvpre : ∀ u ∈ vpre, varOK true rowFs u = true)
    (hlv : lookupField rowFs v = some (.obj tvFs))
    (hty : lookupField tvFs "type" = some (.str tag))
    (hbad1 : tag ≠ "uri") (hbad2 : tag ≠ "literal") (hbad3 : tag ≠ "bnode") :
    select t fuel endpoint entity_url prev q true hdrs
      = .raise (.valueError ("Unknown type: " ++ tag)) := by
  obtain ⟨htr, hres, ⟨hd2, hh, hv2⟩, ⟨res, hr, hb⟩⟩ := hshape
  unfold select
  rw [query_resolveHeaders, hq]
  show (match selectData entity_url true d with
      | Except.ok v => (Outcome.ok v : Outcome (Option (List (List (Json × Cell)))))
      | Except.error e => Outcome.raise e) = _
  have hbadrow : projectRow entity_url true (vars.map Json.str) (Json.obj rowFs)
      = .error (.valueError ("Unknown type: " ++ tag)) := by
    unfold projectRow
    rw [hvarsplit]
    exact projectRow_reach_error entity_url true rowFs _ v
      (projectVar_unknown_tag entity_url rowFs v tvFs tag hlv hty hbad1 hbad2 hbad3)
      vpre vpost [] hvpre
  have hprerows : ∀ r ∈ rpre,
      ∃ out, projectRow entity_url true (vars.map Json.str) r = .ok out := by
    intro r hrw
    have hwf := hpre r hrw
    cases r with
    | obj fs2 =>
      unfold projectRow
      exact projectRow_ok_exists entity_url true fs2 vars []
        (fun u hu => List.all_eq_true.mp hwf u hu)
    | null => cases hwf
    | bool b => cases hwf
    | num n => cases hwf
    | str s => cases hwf
    | arr es => cases hwf
  have hsd : selectData entity_url true d
      = .error (.valueError ("Unknown type: " ++ tag)) := by
    unfold selectData
    simp only [htr, hres, hh, hv2, hr, hb, pyBind_ok, Bool.not_true, reduceIte, pyIterate]
    rw [hrowsplit, mapM_reach_error (projectRow entity_url true (vars.map Json.str)) _
      (Json.obj rowFs) hbadrow rpre rpost hprerows]
    rfl
  rw [hsd]

/-- Witness for C3 at a concrete document carrying the unknown tag
`weird`. -/
theorem select_unknown_type_tag_valueerror_witness :
    select (constTransport ⟨some (.obj [("head", .obj [("vars", .arr [.str "item"])]),
        ("results", .obj [("bindings", .arr [.obj [("item",
          .obj [("type", .str "weird"), ("value", .str "v")])]])])]), ""⟩)
      1 "https://ep" "e" none "q" true none
      = .raise (.valueError "Unknown type: weird") := by
  exact (select_unknown_type_tag_valueerror (constTransport ⟨some (.obj [("head",
      .obj [("vars", .arr [.str "item"])]), ("results", .obj [("bindings", .arr [.obj [("item",
      .obj [("type", .str "weird"), ("value", .str "v")])]])])]), ""⟩)
    1 "https://ep" "e" none "q" none
    (.obj [("head", .obj [("vars", .arr [.str "item"])]), ("results", .obj [("bindings",
      .arr [.obj [("item", .obj [("type", .str "weird"), ("value", .str "v")])]])])])
    ["item"] [.obj [("item", .obj [("type", .str "weird"), ("value", .str "v")])]]
    [] [] [("item", .obj [("type", .str "weird"), ("value", .str "v")])]
    [] [] "item" [("type", .str "weird"), ("value", .str "v")] "weird"
    rfl ⟨rfl, rfl, ⟨_, rfl, rfl⟩, ⟨_, rfl, rfl⟩⟩ rfl (by intro r hr; cases hr) rfl
    (by intro u hu; cases hu) rfl rfl (by decide) (by decide) (by decide)).trans (by rfl)

/-! ## C8 and C10: `get_items` -/

theorem mapM_map_ok {A B C : Type} (h : A → B) (f : B → Except PyError C) (g : A → C) :
    ∀ l : List A, (∀ x ∈ l, f (h x) = .ok (g x)) →
      (l.map h).mapM f = .ok (l.map g) := by
  intro l
  induction l with
  | nil => intro _; rfl
  | cons x xs ih =>
    intro hall
    rw [List.map_cons, List.mapM_cons, hall x (by simp)]
    simp only [pyBind_ok]
    rw [ih (fun y hy => hall y (by simp [hy]))]
    rfl

theorem mapM_map_error {A B C : Type} (h : A → B) (f : B → Except PyError C) (err : PyError) :
    ∀ l : List A, (∀ x ∈ l, (∃ y, f (h x) = .ok y) ∨ f (h x) = .error err) →
      (∃ x ∈ l, f (h x) = .error err) →
      (l.map h).mapM f = .error err := by
  intro l
  induction l with
  | nil =>
    rintro _ ⟨x, hx, _⟩
    cases hx
  | cons a xs ih =>
    intro hall hex
    cases hfa : f (h a) with
    | error e2 =>
      have he2 : e2 = err := by
        rcases hall a (by simp) with ⟨y, hy⟩ | he
        · rw [hfa] at hy; cases hy
        · rw [hfa] at he
          injection he
      subst he2
      rw [List.map_cons, List.mapM_cons, hfa]
      rfl
    | ok y =>
      rw [List.map_cons, List.mapM_cons, hfa]
      simp only [pyBind_ok]
      have hex2 : ∃ x ∈ xs, f (h x) = .error err := by
        rcases hex with ⟨x, hx, hfx⟩
        rcases List.mem_cons.mp hx with rfl | hx2
        · rw [hfa] at hfx; cases hfx
        · exact ⟨x, hx2, hfx⟩
      rw [ih (fun y2 hy2 => hall y2 (by simp [hy2])) hex2]
      rfl

theorem cellGetID_rowCellSpec_uri (eu item : String) (row : Json)
    (hb : isUriStrBinding row item = true) :
    cellGetID (rowCellSpec eu true row item) = .ok (idOfRow eu item row) := by
  cases row with
  | obj fs =>
    have hb0 : (match lookupField fs item with
        | some (Json.obj tvFs) =>
          (match lookupField tvFs "type" with
            | some (Json.str t) => t == "uri"
            | _ => false) &&
          (match lookupField tvFs "value" with
            | some (Json.str _) => true
            | _ => false)
        | _ => false) = true := hb
    cases hlv : lookupField fs item with
    | none => rw [hlv] at hb0; cases hb0
    | some tv =>
      rw [hlv] at hb0
      cases tv with
      | obj tvFs =>
        have hb2 : ((match lookupField tvFs "type" with
             | some (Json.str t) => t == "uri"
             | _ => false) &&
            (match lookupField tvFs "value" with
             | some (Json.str _) => true
             | _ => false)) = true := hb0
        obtain ⟨hbt, hbv⟩ := Bool.and_eq_true_iff.mp hb2
        cases hty : lookupField tvFs "type" with
        | none => rw [hty] at hbt; cases hbt
        | some tyv =>
          rw [hty] at hbt
          cases tyv with
          | str tg =>
            have hbt2 : (tg == "uri") = true := hbt
            have htg : tg = "uri" := beq_iff_eq.mp hbt2
            subst htg
            cases hval : lookupField tvFs "value" with
            | none => rw [hval] at hbv; cases hbv
            | some valv =>
              rw [hval] at hbv
              cases valv with
              | str v =>
                simp [rowCellSpec, hlv, decodedNode, typeTagOf, hty, fieldOf, hval,
                  cellGetID, uriGetID, idOfRow]
                split <;> rfl
              | null => cases hbv
              | bool b => cases hbv
              | num n => cases hbv
              | arr es => cases hbv
              | obj fs2 => cases hbv
          | null => cases hbt
          | bool b => cases hbt
          | num n => cases hbt
          | arr es => cases hbt
          | obj fs2 => cases hbt
      | null => cases hb0
      | bool b => cases hb0
      | num n => cases hb0
      | str s => cases hb0
      | arr es => cases hb0
  | null => cases hb
  | bool b => cases hb
  | num n => cases hb
  | str s => cases hb
  | arr es => cases hb

theorem cellGetID_rowCellSpec_unbound (eu item : String) (row : Json)
    (hu : isUnboundAt row item = true) :
    cellGetID (rowCellSpec eu true row item)
      = .error (.attributeError "NoneType object has no attribute getID") := by
  cases row with
  | obj fs =>
    have hiso : (lookupField fs item).isNone = true := hu
    cases hlv : lookupField fs item with
    | none => simp [rowCellSpec, hlv, cellGetID, pyTypeName]
    | some tv => rw [hlv] at hiso; cases hiso
  | null => cases hu
  | bool b => cases hu
  | num n => cases hu
  | str s => cases hu
  | arr es => cases hu

/-- C8: on a well-formed full-data result in which every row binds the named
variable to a URI descriptor with a string value, `get_items` feeds the
per-row `getID()` values, in row order, to the caller-supplied container
constructor: a set container deduplicates (membership only), a sequence
container keeps one entry per row; when `query` yields `None` or the result
has no rows, the result is an empty instance of the container. -/
theorem get_items_collects_entity_ids
    (t : Transport) (fuel : Nat) (endpoint entity_url : String) (prev : Option Response)
    (q item : String) :
    (∀ (d : Json) (vars : List String) (rows : List Json),
      (query t fuel endpoint prev q none).outcome = .ok d →
      docShape d vars rows → vars.Nodup →
      (∀ row ∈ rows, rowWF true vars row = true) →
      item ∈ vars →
      (∀ row ∈ rows, isUriStrBinding row item = true) →
      rows ≠ [] →
      (∀ {α : Type} (result_type : List (Option String) → α),
        get_items t fuel endpoint entity_url prev q item result_type
          = .ok (result_type (rows.map (idOfRow entity_url item)))) ∧
      get_items t fuel endpoint entity_url prev q item (fun l => l.toFinset)
        = .ok (rows.map (idOfRow entity_url item)).toFinset ∧
      (∀ x, x ∈ (rows.map (idOfRow entity_url item)).toFinset ↔
        x ∈ rows.map (idOfRow entity_url item)) ∧
      get_items t fuel endpoint entity_url prev q item (fun l => l)
        = .ok (rows.map (idOfRow entity_url item)) ∧
      (rows.map (idOfRow entity_url item)).length = rows.length) ∧
    ((query t fuel endpoint prev q none).outcome = .ok .null →
      ∀ {α : Type} (result_type : List (Option String) → α),
        get_items t fuel endpoint entity_url prev q item result_type
          = .ok (result_type [])) ∧
    (∀ (d : Json) (vars : List String),
      (query t fuel endpoint prev q none).outcome = .ok d →
      docShape d vars [] → vars.Nodup →
      ∀ {α : Type} (result_type : List (Option String) → α),
        get_items t fuel endpoint entity_url prev q item result_type
          = .ok (result_type [])) := by
  refine ⟨?_, ?_, ?_⟩
  · intro d vars rows hq hshape hnd hrows hitem hbind hne
    have hsel := select_wf_eval t fuel endpoint entity_url prev q none true d vars rows
      hq hshape hnd hrows
    have hmain : ∀ {α : Type} (rt : List (Option String) → α),
        get_items t fuel endpoint entity_url prev q item rt
          = .ok (rt (rows.map (idOfRow entity_url item))) := by
      intro α rt
      unfold get_items
      rw [hsel]
      show (if (rows.map (rowProj entity_url true vars)).isEmpty = true
          then Outcome.ok (rt [])
          else match (rows.map (rowProj entity_url true vars)).mapM
              (fun r => Bind.bind (rowSubscript r item) cellGetID) with
            | .ok ids => Outcome.ok (rt ids)
            | .error e => .raise e) = _
      have hemp : (rows.map (rowProj entity_url true vars)).isEmpty = false := by
        cases rows with
        | nil => exact absurd rfl hne
        | cons a l => rfl
      rw [hemp]
      simp only [Bool.false_eq_true, if_false]
      rw [mapM_map_ok (rowProj entity_url true vars)
        (fun r => Bind.bind (rowSubscript r item) cellGetID)
        (idOfRow entity_url item) rows
        (by
          intro row hrw
          show Bind.bind (rowSubscript (rowProj entity_url true vars row) item) cellGetID = _
          rw [rowSubscript_rowProj entity_url true row item vars hitem]
          simp only [pyBind_ok]
          exact cellGetID_rowCellSpec_uri entity_url item row (hbind row hrw))]
    refine ⟨fun {α} rt => hmain rt, hmain (fun l => l.toFinset), fun x => List.mem_toFinset,
      hmain (fun l => l), by simp⟩
  · intro hq α rt
    unfold get_items
    have hsel : select t fuel endpoint entity_url prev q true none = .ok none := by
      unfold select
      rw [query_resolveHeaders, hq]
      rfl
    rw [hsel]
  · intro d vars hq hshape hnd α rt
    have hsel := select_wf_eval t fuel endpoint entity_url prev q none true d vars []
      hq hshape hnd (fun r hr => absurd hr (List.not_mem_nil r))
    unfold get_items
    rw [hsel]
    rfl

/-- Sample document with two identical URI rows for the C8 witness. -/
def docDup : Json :=
  .obj [("head", .obj [("vars", .arr [.str "item"])]),
        ("results", .obj [("bindings", .arr [
          .obj [("item", .obj [("type", .str "uri"),
                               ("value", .str "http://www.wikidata.org/entity/Q1")])],
          .obj [("item", .obj [("type", .str "uri"),
                               ("value", .str "http://www.wikidata.org/entity/Q1")])]])])]

/-- Witness for C8: duplicate URIs deduplicate under the set container, stay
duplicated under the list container, and a `None` result yields an empty
container. -/
theorem get_items_collects_entity_ids_witness :
    get_items (constTransport ⟨some docDup, ""⟩) 1 "https://ep"
        "http://www.wikidata.org/entity/" none "q" "item" (fun l => l.toFinset)
      = .ok {some "Q1"} ∧
    get_items (constTransport ⟨some docDup, ""⟩) 1 "https://ep"
        "http://www.wikidata.org/entity/" none "q" "item" (fun l => l)
      = .ok [some "Q1", some "Q1"] ∧
    get_items (constTransport ⟨none, "zz"⟩) 1 "https://ep" "e" none "q" "item" (fun l => l)
      = .ok [] := by
  have hmain := (get_items_collects_entity_ids (constTransport ⟨some docDup, ""⟩) 1 "https://ep"
    "http://www.wikidata.org/entity/" none "q" "item").1 docDup ["item"]
    [.obj [("item", .obj [("type", .str "uri"),
            ("value", .str "http://www.wikidata.org/entity/Q1")])],
     .obj [("item", .obj [("type", .str "uri"),
            ("value", .str "http://www.wikidata.org/entity/Q1")])]]
    rfl ⟨rfl, rfl, ⟨_, rfl, rfl⟩, ⟨_, rfl, rfl⟩⟩ (by decide)
    (by
      intro row hr
      simp only [List.mem_cons, List.not_mem_nil, or_false] at hr
      rcases hr with rfl | rfl <;> decide)
    (by decide)
    (by
      intro row hr
      simp only [List.mem_cons, List.not_mem_nil, or_false] at hr
      rcases hr with rfl | rfl <;> decide)
    (List.cons_ne_nil _ _)
  refine ⟨?_, ?_, ?_⟩
  · exact hmain.2.1.trans (congrArg Outcome.ok (by decide))
  · exact hmain.2.2.2.1.trans (congrArg Outcome.ok (by rfl))
  · exact (get_items_collects_entity_ids (constTransport ⟨none, "zz"⟩) 1 "https://ep" "e"
      none "q" "item").2.1 rfl (fun l => l)

/-- C10: when some row of a full-data result leaves the named variable
unbound (`None`, as with OPTIONAL clauses) and the other rows bind it to URI
nodes, `get_items` raises the unhandled attribute-access error from calling
`getID()` on `None` — the row is neither skipped nor mapped to a null
identifier. -/
theorem get_items_unbound_variable_crashes
    (t : Transport) (fuel : Nat) (endpoint entity_url : String) (prev : Option Response)
    (q item : String) (d : Json) (vars : List String) (rows : List Json)
    (hq : (query t fuel endpoint prev q none).outcome = .ok d)
    (hshape : docShape d vars rows) (hnd : vars.Nodup)
    (hrows : ∀ row ∈ rows, rowWF true vars row = true)
    (hitem : item ∈ vars)
    (hcells : ∀ row ∈ rows, (isUriStrBinding row item || isUnboundAt row item) = true)
    (hsome : ∃ row ∈ rows, isUnboundAt row item = true) :
    ∀ {α : Type} (result_type : List (Option String) → α),
      get_items t fuel endpoint entity_url prev q item result_type
        = .raise (.attributeError "NoneType object has no attribute getID") := by
  intro α rt
  have hsel := select_wf_eval t fuel endpoint entity_url prev q none true d vars rows
    hq hshape hnd hrows
  unfold get_items
  rw [hsel]
  have hne : rows ≠ [] := by
    rcases hsome with ⟨r, hr, _⟩
    intro he
    rw [he] at hr
    cases hr
  show (if (rows.map (rowProj entity_url true vars)).isEmpty = true
      then Outcome.ok (rt [])
      else match (rows.map (rowProj entity_url true vars)).mapM
          (fun r => Bind.bind (rowSubscript r item) cellGetID) with
        | .ok ids => Outcome.ok (rt ids)
        | .error e => .raise e) = _
  have hemp : (rows.map (rowProj entity_url true vars)).isEmpty = false := by
    cases rows with
    | nil => exact absurd rfl hne
    | cons a l => rfl
  rw [hemp]
  simp only [Bool.false_eq_true, if_false]
  rw [mapM_map_error (rowProj entity_url true vars)
    (fun r => Bind.bind (rowSubscript r item) cellGetID)
    (.attributeError "NoneType object has no attribute getID") rows
    (by
      intro row hrw
      cases hub : isUnboundAt row item with
      | true =>
        right
        show Bind.bind (rowSubscript (rowProj entity_url true vars row) item) cellGetID = _
        rw [rowSubscript_rowProj entity_url true row item vars hitem]
        simp only [pyBind_ok]
        exact cellGetID_rowCellSpec_unbound entity_url item row hub
      | false =>
        left
        have hbind : isUriStrBinding row item = true := by
          have := hcells row hrw
          rw [hub, Bool.or_false] at this
          exact this
        refine ⟨idOfRow entity_url item row, ?_⟩
        show Bind.bind (rowSubscript (rowProj entity_url true vars row) item) cellGetID = _
        rw [rowSubscript_rowProj entity_url true row item vars hitem]
        simp only [pyBind_ok]
        exact cellGetID_rowCellSpec_uri entity_url item row hbind)
    (by
      rcases hsome with ⟨row, hrw, hub⟩
      refine ⟨row, hrw, ?_⟩
      show Bind.bind (rowSubscript (rowProj entity_url true vars row) item) cellGetID = _
      rw [rowSubscript_rowProj entity_url true row item vars hitem]
      simp only [pyBind_ok]
      exact cellGetID_rowCellSpec_unbound entity_url item row hub)]

/-- Witness for C10: one URI row and one row with the variable unbound. -/
theorem get_items_unbound_variable_crashes_witness :
    get_items (constTransport ⟨some (.obj [("head", .obj [("vars", .arr [.str "item"])]),
        ("results", .obj [("bindings", .arr [
          .obj [("item", .obj [("type", .str "uri"), ("value", .str "http://e/Q1")])],
          .obj []])])]), ""⟩) 1 "https://ep" "http://e/" none "q" "item" (fun l => l)
      = .raise (.attributeError "NoneType object has no attribute getID") := by
  exact get_items_unbound_variable_crashes (constTransport ⟨some (.obj [("head",
      .obj [("vars", .arr [.str "item"])]), ("results", .obj [("bindings", .arr [
      .obj [("item", .obj [("type", .str "uri"), ("value", .str "http://e/Q1")])],
      .obj []])])]), ""⟩) 1 "https://ep" "http://e/" none "q" "item"
    (.obj [("head", .obj [("vars", .arr [.str "item"])]), ("results", .obj [("bindings",
      .arr [.obj [("item", .obj [("type", .str "uri"), ("value", .str "http://e/Q1")])],
      .obj []])])])
    ["item"]
    [.obj [("item", .obj [("type", .str "uri"), ("value", .str "http://e/Q1")])], .obj []]
    rfl ⟨rfl, rfl, ⟨_, rfl, rfl⟩, ⟨_, rfl, rfl⟩⟩ (by decide)
    (by
      intro row hr
      simp only [List.mem_cons, List.not_mem_nil, or_false] at hr
      rcases hr with rfl | rfl <;> decide)
    (by decide)
    (by
      intro row hr
      simp only [List.mem_cons, List.not_mem_nil, or_false] at hr
      rcases hr with rfl | rfl <;> decide)
    ⟨.obj [], by simp, rfl⟩ (fun l => l)
